import Mathlib

/-!
Shallow embedding of the capture-and-restore engine of the
"Windows 11 window and program reinstate on restart" utility
(`src/window_capture.py` and `src/window_restore.py`).

Strings are compared the way Python compares them: case-insensitive
comparisons go through a character-wise `lower`, substring tests mirror
Python's `in`, and `executable.split('\\')[-1]` is modelled by
`baseNameChars`.  Live OS state (the window list, the monitor work
areas, process launches) is a `LiveEnv` read by the restore functions;
the side effects a restore emits (ShowWindow / SetWindowPos /
SetForegroundWindow / process launch / sleeps) are recorded as a list
of `OsOp`.  Integer geometry is exact: Python's floor division `//`
is `Int.fdiv`.
-/

/-- Character-wise lowercase of a Python string (`s.lower()`). -/
def lowerChars (s : String) : List Char := s.data.map Char.toLower

/-- Does `hay` start with `needle`?  (Helper for Python's `in`.) -/
def startsWithChars : List Char → List Char → Bool
  | [], _ => true
  | _ :: _, [] => false
  | a :: as, b :: bs => a == b && startsWithChars as bs

/-- Python's substring test `needle in hay`. -/
def containsChars (needle : List Char) : List Char → Bool
  | [] => needle.isEmpty
  | b :: bs => startsWithChars needle (b :: bs) || containsChars needle bs

/-- Python's `str.split(sep)` for a one-character separator. -/
def splitOnChar (c : Char) : List Char → List (List Char)
  | [] => [[]]
  | a :: as =>
    match splitOnChar c as with
    | h :: t => if a == c then [] :: h :: t else (a :: h) :: t
    | [] => if a == c then [[], []] else [[a]]

/-- Python's `executable.split('\\')[-1].lower()`: the executable's base file name. -/
def baseNameChars (s : String) : List Char :=
  ((splitOnChar '\\' s.data).getLastD []).map Char.toLower

/-- Tolerance test `abs (a - b) <= 24` of the snap classifier (`tol = 24`). -/
def nearEq (a b : Int) : Prop := (a - b).natAbs ≤ 24

instance (a b : Int) : Decidable (nearEq a b) :=
  inferInstanceAs (Decidable ((a - b).natAbs ≤ 24))

/-! ## Data model -/

/-- One captured/saved window record (the `window_info` dict built by
`get_window_info` and consumed by `restore_window`); default field values are
the `dict.get` defaults used by `restore_window`. -/
structure WindowRecord where
  executable : String
  title : String
  x : Int := 0
  y : Int := 0
  width : Int := 800
  height : Int := 600
  state : String := "normal"
  monitor : Int := 0
  snap_type : Option String := none
  tabs : List (String × String) := []
deriving DecidableEq

/-- One live top-level window as the restore-time enumeration sees it:
handle, owning process name (as `psutil.Process(pid).name()`), caption text,
`GetWindowRect` rectangle `(left, top, right, bottom)`, visibility and
minimized flags. -/
structure Win where
  hwnd : Nat
  procName : String
  title : String
  rect : Int × Int × Int × Int
  visible : Bool
  minimized : Bool
deriving DecidableEq

/-- The live OS state a restore run reads: the window list in enumeration
order, the monitor work areas in `EnumDisplayMonitors` order, the work area
of the monitor nearest a given window (`MonitorFromWindow` +
`GetMonitorInfo`, `none` on failure), and whether launching an executable
succeeds (`subprocess.Popen`). -/
structure LiveEnv where
  wins : List Win
  monitorWorks : List (Int × Int × Int × Int)
  monitorWorkFor : Nat → Option (Int × Int × Int × Int)
  launchOk : String → Bool

/-- A `win32` show command used by the engine. -/
inductive ShowCmd where
  | restore
  | maximize
  | minimize
deriving DecidableEq

/-- One OS side effect emitted during restore. -/
inductive OsOp where
  | showWindow (hwnd : Nat) (cmd : ShowCmd)
  | setWindowPos (hwnd : Nat) (x y width height : Int)
  | setForeground (hwnd : Nat)
  | launch (executable : String)
  | sleepMs (ms : Nat)
deriving DecidableEq

/-! ## Module-level constants (`window_capture.py`, `window_restore.py`) -/

def EXCLUDED_TITLES : List String :=
  ["Program Manager", "Windows Input Experience",
   "Microsoft Text Input Application", "Windows Defender", "Security Health"]

def EXCLUDED_PROCESSES : List String :=
  ["explorer.exe", "systemsettings.exe", "searchhost.exe",
   "startmenuexperiencehost.exe", "textinputhost.exe", "applicationframehost.exe"]

def EXCLUDED_TITLE_PARTS : List String :=
  ["Save Window Layout", "Window Restore - Manage Presets"]

def SESSION_MANAGED_APPS : List (List Char) :=
  ["chrome.exe".data, "msedge.exe".data, "firefox.exe".data,
   "brave.exe".data, "opera.exe".data]

def RESTORE_BROWSER_TABS : Bool := false

def RESTORE_SESSION_MANAGED_APPS : Bool := true

/-! ## Capture side (`window_capture.py`) -/

/-- Raw per-handle OS data that `get_window_info` reads; each field is the
result of the corresponding `win32`/`psutil` query (`none` where the source
treats a failed query as missing). -/
structure CapturedWin where
  osVisible : Bool
  title : String
  procName : Option String
  toolWindow : Bool
  hasCaption : Bool
  rect : Option (Int × Int × Int × Int)
  executable : Option String
  stateRaw : String
  monitor : Int
  work : Option (Int × Int × Int × Int)

/-- Source `is_visible_window`: the eligibility predicate, checks in source order. -/
def is_visible_window (w : CapturedWin) : Bool :=
  w.osVisible
  && !(w.title == "")
  && !(EXCLUDED_TITLES.any (fun t => containsChars (lowerChars t) (lowerChars w.title)))
  && (match w.procName with
      | some p => !(EXCLUDED_PROCESSES.contains p)
      | none => true)
  && !w.toolWindow
  && w.hasCaption

/-- Source `detect_snap_type`: classify a window rectangle against its monitor's
work area; `work` is the `MonitorFromWindow`/`GetMonitorInfo` result
(`none` when that lookup fails, the `except` path). -/
def detect_snap_type (state : String) (rect : Int × Int × Int × Int)
    (work : Option (Int × Int × Int × Int)) : Option String :=
  if state ≠ "normal" then none
  else
    match work, rect with
    | none, _ => none
    | some (wx1, wy1, wx2, wy2), (mx1, my1, mx2, my2) =>
      if nearEq mx1 wx1 ∧ nearEq (my2 - my1) (wy2 - wy1) ∧
          nearEq (mx2 - mx1) ((wx2 - wx1).fdiv 2) then some "left"
      else if nearEq mx2 wx2 ∧ nearEq (my2 - my1) (wy2 - wy1) ∧
          nearEq (mx2 - mx1) ((wx2 - wx1).fdiv 2) then some "right"
      else if nearEq my1 wy1 ∧ nearEq (mx2 - mx1) (wx2 - wx1) ∧
          nearEq (my2 - my1) ((wy2 - wy1).fdiv 2) then some "top"
      else if nearEq my2 wy2 ∧ nearEq (mx2 - mx1) (wx2 - wx1) ∧
          nearEq (my2 - my1) ((wy2 - wy1).fdiv 2) then some "bottom"
      else if nearEq mx1 wx1 ∧ nearEq my1 wy1 ∧
          nearEq (mx2 - mx1) ((wx2 - wx1).fdiv 2) ∧
          nearEq (my2 - my1) ((wy2 - wy1).fdiv 2) then some "top_left"
      else if nearEq mx2 wx2 ∧ nearEq my1 wy1 ∧
          nearEq (mx2 - mx1) ((wx2 - wx1).fdiv 2) ∧
          nearEq (my2 - my1) ((wy2 - wy1).fdiv 2) then some "top_right"
      else if nearEq mx1 wx1 ∧ nearEq my2 wy2 ∧
          nearEq (mx2 - mx1) ((wx2 - wx1).fdiv 2) ∧
          nearEq (my2 - my1) ((wy2 - wy1).fdiv 2) then some "bottom_left"
      else if nearEq mx2 wx2 ∧ nearEq my2 wy2 ∧
          nearEq (mx2 - mx1) ((wx2 - wx1).fdiv 2) ∧
          nearEq (my2 - my1) ((wy2 - wy1).fdiv 2) then some "bottom_right"
      else none

/-- Source `_is_own_utility_window`: excludes the utility's own dialogs. -/
def is_own_utility_window (executable : String) (title : String) : Bool :=
  if baseNameChars executable == "python.exe".data
      || baseNameChars executable == "pythonw.exe".data then
    EXCLUDED_TITLE_PARTS.any (fun t => containsChars (lowerChars t) (lowerChars title))
  else false

/-- Source `get_window_info`: build the record for one surviving handle; `getTabs`
is the tab-capture collaborator (`get_browser_tabs`). -/
def get_window_info (getTabs : String → String → List (String × String))
    (w : CapturedWin) (include_tabs : Bool) (include_minimized : Bool) :
    Option WindowRecord :=
  if !is_visible_window w then none
  else
    match w.rect with
    | none => none
    | some (l, t, r, b) =>
      match w.executable with
      | none => none
      | some executable =>
        if w.stateRaw = "minimized" ∧ include_minimized = false then none
        else if is_own_utility_window executable w.title then none
        else
          some { executable := executable, title := w.title,
                 x := l, y := t, width := r - l, height := b - t,
                 state := w.stateRaw, monitor := w.monitor,
                 snap_type := detect_snap_type w.stateRaw (l, t, r, b) w.work,
                 tabs := if include_tabs then getTabs w.title executable else [] }

/-- The `layouts` table of `apply_snap_layout`: the rectangle
`(x, y, width, height)` a snap zone maps to inside a work area. -/
def zoneRect (snap : String) (work : Int × Int × Int × Int) :
    Option (Int × Int × Int × Int) :=
  match work with
  | (wx1, wy1, wx2, wy2) =>
    let workW := wx2 - wx1
    let workH := wy2 - wy1
    let halfW := max 1 (workW.fdiv 2)
    let halfH := max 1 (workH.fdiv 2)
    if snap = "left" then some (wx1, wy1, halfW, workH)
    else if snap = "right" then some (wx1 + halfW, wy1, workW - halfW, workH)
    else if snap = "top" then some (wx1, wy1, workW, halfH)
    else if snap = "bottom" then some (wx1, wy1 + halfH, workW, workH - halfH)
    else if snap = "top_left" then some (wx1, wy1, halfW, halfH)
    else if snap = "top_right" then some (wx1 + halfW, wy1, workW - halfW, halfH)
    else if snap = "bottom_left" then some (wx1, wy1 + halfH, halfW, workH - halfH)
    else if snap = "bottom_right" then
      some (wx1 + halfW, wy1 + halfH, workW - halfW, workH - halfH)
    else none

/-! ## Restore side (`window_restore.py`) -/

/-- The candidate filter shared by the matchers: visible, non-empty title,
owning process name equal (case-insensitively) to the target base name. -/
def isCandidate (targetExe : List Char) (w : Win) : Bool :=
  w.visible && !(w.title == "") && (lowerChars w.procName == targetExe)

/-- Source `find_window_by_executable`: first enumerated visible window of the
executable whose title contains `title` as a case-insensitive substring
(any title when `title` is empty). -/
def find_window_by_executable (env : LiveEnv) (executable title : String) :
    Option Nat :=
  (env.wins.find? (fun w =>
      isCandidate (baseNameChars executable) w &&
      (title == "" || containsChars (lowerChars title) (lowerChars w.title)))).map
    Win.hwnd

/-- Source `find_windows_by_executable`: all visible titled windows of the
executable, in enumeration order. -/
def find_windows_by_executable (env : LiveEnv) (executable : String) : List Nat :=
  (env.wins.filter (isCandidate (baseNameChars executable))).map Win.hwnd

/-- Lookup `win32gui.GetWindowText` at restore time (empty string when the handle
is unknown, the `except` path). -/
def getWindowText (env : LiveEnv) (hwnd : Nat) : String :=
  match env.wins.find? (fun w => w.hwnd == hwnd) with
  | some w => w.title
  | none => ""

/-- The `area` key of `_choose_best_window`:
`max(0, (r - l) * (b - t))` of `GetWindowRect` (0 when the lookup fails). -/
def winArea (env : LiveEnv) (hwnd : Nat) : Int :=
  match env.wins.find? (fun w => w.hwnd == hwnd) with
  | some w => match w.rect with | (l, t, r, b) => max 0 ((r - l) * (b - t))
  | none => 0

/-- Stable descending insertion: `x` is placed before the first element
whose key does not exceed `x`'s, which keeps earlier-enumerated windows
first among equal areas — the stability of Python's `sorted`. -/
def insertByDesc (key : Nat → Int) (x : Nat) : List Nat → List Nat
  | [] => [x]
  | y :: ys => if key y ≤ key x then x :: y :: ys else y :: insertByDesc key x ys

/-- Stable descending sort by key: `sorted(hwnds, key=area, reverse=True)`. -/
def sortByDesc (key : Nat → Int) : List Nat → List Nat
  | [] => []
  | x :: xs => insertByDesc key x (sortByDesc key xs)

/-- Source `_choose_best_window`: first candidate whose title contains the desired
title (when one is given), else the largest-area window, earliest first on
ties. -/
def choose_best_window (env : LiveEnv) (hwnds : List Nat) (desired_title : String) :
    Option Nat :=
  match hwnds with
  | [] => none
  | h :: t =>
    match (if desired_title == "" then none
           else (h :: t).find? (fun hw =>
             containsChars (lowerChars desired_title) (lowerChars (getWindowText env hw)))) with
    | some hw => some hw
    | none => some ((sortByDesc (winArea env) (h :: t)).headD h)

/-- The composed matcher used twice by `restore_window`
(`find_window_by_executable(...) or _choose_best_window(find_windows_by_executable(...), title)`);
this is the spec's `findBest`. -/
def findBest (env : LiveEnv) (executable title : String) : Option Nat :=
  match find_window_by_executable env executable title with
  | some h => some h
  | none => choose_best_window env (find_windows_by_executable env executable) title

/-- Source `launch_program`: a `subprocess.Popen` followed by a 2-second wait on
success; `none` when the spawn raises. -/
def launch_program (env : LiveEnv) (executable : String) : Option Nat × List OsOp :=
  if env.launchOk executable then (some 1, [OsOp.launch executable, OsOp.sleepMs 2000])
  else (none, [OsOp.launch executable])

/-- The `intersects` test of `position_window` on `(x1, y1, x2, y2)` rects. -/
def intersects (a b : Int × Int × Int × Int) : Bool :=
  match a, b with
  | (ax1, ay1, ax2, ay2), (bx1, by1, bx2, by2) =>
    if ax2 ≤ bx1 ∨ ax1 ≥ bx2 ∨ ay2 ≤ by1 ∨ ay1 ≥ by2 then false else true

/-- The geometry `position_window` computes before calling `SetWindowPos`:
with at least one work area, sizes are first raised to the 320x220 minimum;
if the resulting rectangle misses every work area it is recentered inside
the saved monitor's work area (primary when the index is stale), capped to
that work area. -/
def position_geom (workAreas : List (Int × Int × Int × Int))
    (x y width height : Int) (monitor : Int) : Int × Int × Int × Int :=
  match workAreas with
  | [] => (x, y, width, height)
  | wa0 :: rest =>
    let width := max 320 width
    let height := max 220 height
    if (wa0 :: rest).any (fun wa => intersects (x, y, x + width, y + height) wa) then
      (x, y, width, height)
    else
      let tidx : Nat :=
        if 0 ≤ monitor ∧ monitor < ((wa0 :: rest).length : Int) then monitor.toNat else 0
      match (wa0 :: rest).getD tidx wa0 with
      | (wx1, wy1, wx2, wy2) =>
        let w := min width (max 320 (wx2 - wx1))
        let h := min height (max 220 (wy2 - wy1))
        (wx1 + max 0 ((wx2 - wx1 - w).fdiv 2), wy1 + max 0 ((wy2 - wy1 - h).fdiv 2), w, h)

/-- Source `position_window`: restore-from-minimized, `SetWindowPos` with the
clamped geometry, then the saved state (maximize / minimize / foreground
only when activating). -/
def position_window (env : LiveEnv) (hwnd : Nat) (x y width height : Int)
    (state : String) (monitor : Int) (activate : Bool) : List OsOp :=
  match position_geom env.monitorWorks x y width height monitor with
  | (px, py, pw, ph) =>
    (if state = "minimized" then [OsOp.showWindow hwnd ShowCmd.restore, OsOp.sleepMs 500]
     else [OsOp.showWindow hwnd ShowCmd.restore])
    ++ [OsOp.setWindowPos hwnd px py pw ph]
    ++ (if state = "maximized" then [OsOp.showWindow hwnd ShowCmd.maximize]
        else if state = "minimized" then [OsOp.showWindow hwnd ShowCmd.minimize]
        else if activate then [OsOp.setForeground hwnd]
        else [])

/-- Source `apply_snap_layout`: re-derive the zone rectangle against the current
monitor's work area and apply it; `false` (no ops) when there is no snap
type or the monitor lookup fails. -/
def apply_snap_layout (env : LiveEnv) (hwnd : Nat) (snap : Option String) :
    Bool × List OsOp :=
  match snap with
  | none => (false, [])
  | some s =>
    if s = "" then (false, [])
    else
      match env.monitorWorkFor hwnd with
      | none => (false, [])
      | some work =>
        match zoneRect s work with
        | none => (false, [])
        | some (zx, zy, zw, zh) =>
          (true, [OsOp.showWindow hwnd ShowCmd.restore,
                  OsOp.setWindowPos hwnd zx zy zw zh])

/-- The placement step of `restore_window` once a handle is held:
`if not apply_snap_layout(hwnd, snap_type): position_window(...)`. -/
def placementOps (env : LiveEnv) (wi : WindowRecord) (hwnd : Nat) : List OsOp :=
  match apply_snap_layout env hwnd wi.snap_type with
  | (true, ops) => ops
  | (false, _) =>
    position_window env hwnd wi.x wi.y wi.width wi.height wi.state wi.monitor false

/-- The post-launch wait loop of `restore_window`: up to `n` attempts, each
sleeping one second and then re-running the matcher (`for _ in range(10)`...). -/
def pollLoop (env : LiveEnv) (executable title : String) :
    Nat → Option Nat × List OsOp
  | 0 => (none, [])
  | n + 1 =>
    match findBest env executable title with
    | some h => (some h, [OsOp.sleepMs 1000])
    | none =>
      match pollLoop env executable title n with
      | (r, ops) => (r, OsOp.sleepMs 1000 :: ops)

/-- Source `restore_window`: restore one record, threading the per-run
`launched_session_apps` set; returns the success flag, the updated set and
the OS operations performed.  (`RESTORE_BROWSER_TABS` is `False` at module
level, so the trailing `restore_tabs` guard never fires.) -/
def restore_window (env : LiveEnv) (wi : WindowRecord) (launched : List String) :
    Bool × List String × List OsOp :=
  if wi.state = "minimized" then (true, launched, [])
  else if SESSION_MANAGED_APPS.contains (baseNameChars wi.executable)
      && !RESTORE_SESSION_MANAGED_APPS then (true, launched, [])
  else if SESSION_MANAGED_APPS.contains (baseNameChars wi.executable) then
    match findBest env wi.executable wi.title with
    | some hwnd =>
      (true, launched, [OsOp.showWindow hwnd ShowCmd.restore, OsOp.setForeground hwnd])
    | none =>
      if launched.contains wi.executable then (true, launched, [])
      else
        match launch_program env wi.executable with
        | (some _, ops) => (true, wi.executable :: launched, ops)
        | (none, ops) => (false, launched, ops)
  else
    match findBest env wi.executable wi.title with
    | some hwnd => (true, launched, placementOps env wi hwnd)
    | none =>
      match launch_program env wi.executable with
      | (none, lops) => (false, launched, lops)
      | (some _, lops) =>
        match pollLoop env wi.executable wi.title 10 with
        | (some hwnd, pops) => (true, launched, lops ++ pops ++ placementOps env wi hwnd)
        | (none, pops) => (false, launched, lops ++ pops)

/-- The sequential loop of `restore_windows`: success count, final
`launched_session_apps` set, and the concatenated operation trace. -/
def restore_windows_run (env : LiveEnv) :
    List WindowRecord → List String → Nat × List String × List OsOp
  | [], launched => (0, launched, [])
  | r :: rs, launched =>
    match restore_window env r launched with
    | (ok, launched', ops) =>
      match restore_windows_run env rs launched' with
      | (cnt, launched'', ops') =>
        ((if ok then 1 else 0) + cnt, launched'', ops ++ ops')

/-- The `success_count` accumulated by `restore_windows`. -/
def restore_windows_count (env : LiveEnv) (records : List WindowRecord) : Nat :=
  (restore_windows_run env records []).1

/-- The operation trace of a whole `restore_windows` run. -/
def restore_windows_trace (env : LiveEnv) (records : List WindowRecord) : List OsOp :=
  (restore_windows_run env records []).2.2

/-- Source `restore_windows`: the value the function actually returns,
`success_count > 0`. -/
def restore_windows (env : LiveEnv) (records : List WindowRecord) : Bool :=
  decide (0 < restore_windows_count env records)

/-- The `try/except` iteration of `restore_windows` with the per-record body
abstracted as a fallible `step`: a raising record contributes nothing to the
count and the loop moves on.  Returns the records attempted and the count. -/
def restore_windows_loop
    (step : WindowRecord → List String → Except String (Bool × List String)) :
    List WindowRecord → List String → List WindowRecord × Nat
  | [], _ => ([], 0)
  | r :: rs, launched =>
    match step r launched with
    | Except.ok (ok, launched') =>
      match restore_windows_loop step rs launched' with
      | (att, cnt) => (r :: att, (if ok then 1 else 0) + cnt)
    | Except.error _ =>
      match restore_windows_loop step rs launched with
      | (att, cnt) => (r :: att, cnt)

/-- Effect of one emitted operation on the live window set: `ShowWindow`
changes only the minimized flag, `SetWindowPos` moves/resizes the target
window, the rest leave every window untouched. -/
def applyOp (env : LiveEnv) : OsOp → LiveEnv
  | OsOp.showWindow h ShowCmd.restore =>
    { env with wins := env.wins.map (fun w =>
        if w.hwnd == h then { w with minimized := false } else w) }
  | OsOp.showWindow h ShowCmd.maximize =>
    { env with wins := env.wins.map (fun w =>
        if w.hwnd == h then { w with minimized := false } else w) }
  | OsOp.showWindow h ShowCmd.minimize =>
    { env with wins := env.wins.map (fun w =>
        if w.hwnd == h then { w with minimized := true } else w) }
  | OsOp.setWindowPos h x y w ht =>
    { env with wins := env.wins.map (fun v =>
        if v.hwnd == h then { v with rect := (x, y, x + w, y + ht) } else v) }
  | OsOp.setForeground _ => env
  | OsOp.launch _ => env
  | OsOp.sleepMs _ => env

/-- Apply a whole operation trace to the live window set. -/
def applyOps (env : LiveEnv) (ops : List OsOp) : LiveEnv := ops.foldl applyOp env

/-- Composition checked by the round-trip property: re-derive a zone's
rectangle, then classify it against the same work area. -/
def classifyZoneRect (z : String) (work : Int × Int × Int × Int) : Option String :=
  Option.bind (zoneRect z work) (fun r =>
    detect_snap_type "normal" (r.1, r.2.1, r.1 + r.2.2.1, r.2.1 + r.2.2.2) (some work))

/-- The eight canonical snap zones. -/
def SNAP_ZONES : List String :=
  ["left", "right", "top", "bottom", "top_left", "top_right", "bottom_left", "bottom_right"]

/-- Area of a captured rectangle, as `_choose_best_window` computes it. -/
def rectArea (r : Int × Int × Int × Int) : Int :=
  match r with | (l, t, rr, b) => max 0 ((rr - l) * (b - t))

/-! ## Concrete fixtures for witnesses and counterexamples -/

/-- An OS with no windows, no monitors, and every launch failing. -/
def envEmpty : LiveEnv := ⟨[], [], fun _ => none, fun _ => false⟩

/-- Two live chrome windows; the substring-matching one is enumerated first. -/
def envChromePair : LiveEnv :=
  ⟨[⟨1, "chrome.exe", "GitHub - Pricing", (0, 0, 800, 600), true, false⟩,
    ⟨2, "chrome.exe", "GitHub", (100, 100, 500, 400), true, false⟩],
   [(0, 0, 1920, 1080)], fun _ => some (0, 0, 1920, 1080), fun _ => false⟩

/-- One live chrome window. -/
def envChromeOne : LiveEnv :=
  ⟨[⟨7, "chrome.exe", "GitHub", (30, 40, 830, 640), true, false⟩],
   [(0, 0, 1920, 1080)], fun _ => some (0, 0, 1920, 1080), fun _ => false⟩

/-- No live windows, but `C:\app.exe` and `C:\chrome.exe` can be launched. -/
def envLaunchable : LiveEnv :=
  ⟨[], [], fun _ => none, fun e => e == "C:\\app.exe" || e == "C:\\chrome.exe"⟩

def recMinA : WindowRecord := { executable := "C:\\a.exe", title := "A", state := "minimized" }

def recMinB : WindowRecord := { executable := "C:\\b.exe", title := "B", state := "minimized" }

def recMissing : WindowRecord := { executable := "C:\\missing.exe", title := "M" }

def recApp : WindowRecord := { executable := "C:\\app.exe", title := "App" }

def recChrome : WindowRecord :=
  { executable := "C:\\chrome.exe", title := "GitHub", x := 500, y := 500,
    width := 400, height := 300 }

/-- A captured minimized editor window (raw OS data). -/
def capturedMinimized : CapturedWin :=
  ⟨true, "Notes - Editor", some "editor.exe", false, true,
   some (0, 0, 800, 600), some "C:\\editor.exe", "minimized", 0,
   some (0, 0, 1920, 1080)⟩

/-! ## Helper lemmas -/

theorem restore_windows_run_count_le (env : LiveEnv) :
    ∀ (records : List WindowRecord) (launched : List String),
      (restore_windows_run env records launched).1 ≤ records.length := by
  intro records
  induction records with
  | nil => intro launched; simp [restore_windows_run]
  | cons r rs ih =>
    intro launched
    simp only [restore_windows_run]
    rcases h1 : restore_window env r launched with ⟨ok, launched', ops⟩
    rcases h2 : restore_windows_run env rs launched' with ⟨cnt, launched'', ops'⟩
    have := ih launched'
    rw [h2] at this
    simp only [List.length_cons]
    cases ok <;> simp <;> omega

theorem pollLoop_of_none (env : LiveEnv) (executable title : String)
    (h : findBest env executable title = none) :
    ∀ n, pollLoop env executable title n = (none, List.replicate n (OsOp.sleepMs 1000)) := by
  intro n
  induction n with
  | zero => rfl
  | succ m ih => simp [pollLoop, h, ih, List.replicate_succ]

/-- C7: a record whose state is `minimized` is reported handled immediately,
with the launched set unchanged and no OS operation performed. -/
theorem restore_window_minimized_noop (env : LiveEnv) (wi : WindowRecord)
    (launched : List String) (h : wi.state = "minimized") :
    restore_window env wi launched = (true, launched, []) := by
  simp [restore_window, h]

/-- Witness for C7 at a concrete minimized record. -/
theorem restore_window_minimized_noop_witness :
    recMinA.state = "minimized" ∧
    restore_window envEmpty recMinA [] = (true, [], []) :=
  ⟨rfl, restore_window_minimized_noop envEmpty recMinA [] rfl⟩

/-- C6: the per-record `try/except` of `restore_windows` attempts every
record in order for every per-record body, including bodies that raise, and
the loop's result is a plain count — no per-record error propagates. -/
theorem restore_windows_attempts_every_record
    (step : WindowRecord → List String → Except String (Bool × List String))
    (records : List WindowRecord) (launched : List String) :
    (restore_windows_loop step records launched).1 = records := by
  induction records generalizing launched with
  | nil => rfl
  | cons r rs ih =>
    simp only [restore_windows_loop]
    cases hstep : step r launched with
    | ok v =>
      rcases v with ⟨ok, launched'⟩
      have hrec := ih launched'
      rcases h2 : restore_windows_loop step rs launched' with ⟨att, cnt⟩
      rw [h2] at hrec
      simp only [h2]
      simpa using hrec
    | error e =>
      have hrec := ih launched
      rcases h2 : restore_windows_loop step rs launched with ⟨att, cnt⟩
      rw [h2] at hrec
      simp only [h2]
      simpa using hrec

/-- C10: with at least one work area available, the rectangle
`position_window` applies is at least 320 wide and 220 tall, and the
off-screen test itself is performed on the already-enlarged rectangle: when
that enlarged rectangle intersects some work area, the applied rectangle is
exactly the saved position with the enlarged size. -/
theorem position_window_enforces_min_size (workAreas : List (Int × Int × Int × Int))
    (x y width height monitor : Int) (h : workAreas ≠ []) :
    320 ≤ (position_geom workAreas x y width height monitor).2.2.1 ∧
    220 ≤ (position_geom workAreas x y width height monitor).2.2.2 ∧
    ((workAreas.any fun wa =>
        intersects (x, y, x + max 320 width, y + max 220 height) wa) = true →
      position_geom workAreas x y width height monitor =
        (x, y, max 320 width, max 220 height)) := by
  cases workAreas with
  | nil => exact absurd rfl h
  | cons wa0 rest =>
    simp only [position_geom]
    split
    case isTrue hint =>
      refine ⟨le_max_left _ _, le_max_left _ _, fun _ => rfl⟩
    case isFalse hint =>
      rcases hget : (wa0 :: rest).getD _ wa0 with ⟨wx1, wy1, wx2, wy2⟩
      refine ⟨?_, ?_, fun hc => absurd hc (by simp [hint])⟩
      · exact le_min (le_max_left _ _) (le_max_left _ _)
      · exact le_min (le_max_left _ _) (le_max_left _ _)

/-- Witness for C10 at a concrete work-area list and a degenerate saved size. -/
theorem position_window_enforces_min_size_witness :
    ([((0 : Int), (0 : Int), (1920 : Int), (1080 : Int))] ≠ ([] : List (Int × Int × Int × Int))) ∧
    320 ≤ (position_geom [(0, 0, 1920, 1080)] 10 10 50 40 0).2.2.1 ∧
    220 ≤ (position_geom [(0, 0, 1920, 1080)] 10 10 50 40 0).2.2.2 :=
  ⟨by decide,
   (position_window_enforces_min_size [(0, 0, 1920, 1080)] 10 10 50 40 0 (by decide)).1,
   (position_window_enforces_min_size [(0, 0, 1920, 1080)] 10 10 50 40 0 (by decide)).2.1⟩

/-- C5: a non-session-managed, non-minimized record with no live window is
launched and then polled exactly 10 times at 1-second spacing; when no
window ever appears the record fails (no further operations). -/
theorem restore_window_poll_bound (env : LiveEnv) (wi : WindowRecord)
    (launched : List String)
    (hstate : wi.state ≠ "minimized")
    (hns : baseNameChars wi.executable ∉ SESSION_MANAGED_APPS)
    (hnone : findBest env wi.executable wi.title = none)
    (hok : env.launchOk wi.executable = true) :
    restore_window env wi launched =
      (false, launched,
        OsOp.launch wi.executable :: OsOp.sleepMs 2000 ::
          List.replicate 10 (OsOp.sleepMs 1000)) ∧
    (restore_window env wi launched).2.2.count (OsOp.sleepMs 1000) = 10 := by
  have h1 : restore_window env wi launched =
      (false, launched,
        OsOp.launch wi.executable :: OsOp.sleepMs 2000 ::
          List.replicate 10 (OsOp.sleepMs 1000)) := by
    simp [restore_window, hstate, hns, hnone, launch_program, hok,
      pollLoop_of_none env _ _ hnone]
  refine ⟨h1, ?_⟩
  rw [h1]
  simp [List.count_cons, List.count_replicate]

/-- Witness for C5: launching a missing-window app fails after 10 polls. -/
theorem restore_window_poll_bound_witness :
    restore_window envLaunchable recApp [] =
      (false, [],
        OsOp.launch "C:\\app.exe" :: OsOp.sleepMs 2000 ::
          List.replicate 10 (OsOp.sleepMs 1000)) :=
  (restore_window_poll_bound envLaunchable recApp [] (by decide) (by decide)
    (by decide) (by decide)).1

/-- C1 counterexample: two runs with different success counts (2 and 1)
return the same value, so `restore_windows` does not return the count. -/
theorem restore_windows_result_is_not_the_count :
    restore_windows_count envEmpty [recMinA, recMinB, recMissing] = 2 ∧
    restore_windows_count envEmpty [recMinA] = 1 ∧
    restore_windows envEmpty [recMinA, recMinB, recMissing] =
      restore_windows envEmpty [recMinA] :=
  ⟨by decide, by decide, by decide⟩

/-- C1 (amended): `restore_windows` counts successfully handled records but
returns only the Boolean `success_count > 0`; on the 3-record layout where
exactly one fails to launch, the internal count is 2, the failing record was
still attempted (its launch is in the trace), and the returned value is
`true`. -/
theorem restore_windows_returns_partial_success_flag :
    (∀ env records, restore_windows env records =
      decide (0 < restore_windows_count env records)) ∧
    (∀ env records, restore_windows_count env records ≤ records.length) ∧
    restore_windows_count envEmpty [recMinA, recMinB, recMissing] = 2 ∧
    restore_windows envEmpty [recMinA, recMinB, recMissing] = true ∧
    (restore_windows_trace envEmpty [recMinA, recMinB, recMissing]).count
      (OsOp.launch "C:\\missing.exe") = 1 :=
  ⟨fun _ _ => rfl, fun env records => restore_windows_run_count_le env records [],
   by decide, by decide, by decide⟩

/-- C4: restoring a session-managed record with a live matching window only
restores-from-minimized and foregrounds it; applying the emitted operations
leaves every live window's rectangle exactly as it was, whatever the saved
bounds. -/
theorem session_managed_restore_keeps_rect (env : LiveEnv) (wi : WindowRecord)
    (launched : List String) (hwnd : Nat)
    (hstate : wi.state ≠ "minimized")
    (hsession : baseNameChars wi.executable ∈ SESSION_MANAGED_APPS)
    (hfound : findBest env wi.executable wi.title = some hwnd) :
    restore_window env wi launched =
      (true, launched,
        [OsOp.showWindow hwnd ShowCmd.restore, OsOp.setForeground hwnd]) ∧
    (applyOps env (restore_window env wi launched).2.2).wins.map
        (fun w => (w.hwnd, w.rect)) =
      env.wins.map (fun w => (w.hwnd, w.rect)) := by
  have h1 : restore_window env wi launched =
      (true, launched,
        [OsOp.showWindow hwnd ShowCmd.restore, OsOp.setForeground hwnd]) := by
    simp [restore_window, hstate, hsession, RESTORE_SESSION_MANAGED_APPS, hfound]
  refine ⟨h1, ?_⟩
  rw [h1]
  simp only [applyOps, List.foldl, applyOp]
  induction env.wins with
  | nil => rfl
  | cons a l ih =>
    simp only [List.map_cons, List.cons.injEq]
    refine ⟨?_, ih⟩
    by_cases hb : (a.hwnd == hwnd) = true <;> simp [hb]

/-- Witness for C4: a chrome record with saved bounds far from the live
window still leaves the live rectangle untouched. -/
theorem session_managed_restore_keeps_rect_witness :
    restore_window envChromeOne recChrome [] =
      (true, [], [OsOp.showWindow 7 ShowCmd.restore, OsOp.setForeground 7]) ∧
    (applyOps envChromeOne (restore_window envChromeOne recChrome []).2.2).wins.map
        (fun w => (w.hwnd, w.rect)) =
      envChromeOne.wins.map (fun w => (w.hwnd, w.rect)) :=
  session_managed_restore_keeps_rect envChromeOne recChrome [] 7 (by decide)
    (by decide) (by decide)

/-- C8: any record `get_window_info` produces for a minimized window carries
no snap type — `detect_snap_type` classifies only `normal` windows. -/
theorem captured_minimized_has_no_snap
    (getTabs : String → String → List (String × String)) (w : CapturedWin)
    (include_tabs include_minimized : Bool) (r : WindowRecord)
    (h : get_window_info getTabs w include_tabs include_minimized = some r)
    (hm : r.state = "minimized") : r.snap_type = none := by
  unfold get_window_info at h
  split at h
  · exact absurd h (by simp)
  · split at h
    · exact absurd h (by simp)
    · split at h
      · exact absurd h (by simp)
      · split at h
        · exact absurd h (by simp)
        · split at h
          · exact absurd h (by simp)
          · rcases Option.some.inj h with rfl
            simp only at hm
            simp [detect_snap_type, hm]

/-- Witness for C8: a concrete captured minimized window yields a record
with `state = "minimized"` and no snap type. -/
theorem captured_minimized_has_no_snap_witness :
    (get_window_info (fun _ _ => []) capturedMinimized true true).isSome = true ∧
    ((get_window_info (fun _ _ => []) capturedMinimized true true).getD
        { executable := "", title := "" }).snap_type = none := by
  refine ⟨by decide, ?_⟩
  have h : get_window_info (fun _ _ => []) capturedMinimized true true =
      some { executable := "C:\\editor.exe", title := "Notes - Editor",
             x := 0, y := 0, width := 800, height := 600,
             state := "minimized", monitor := 0, snap_type := none, tabs := [] } := by
    decide
  rw [h]
  exact captured_minimized_has_no_snap (fun _ _ => []) capturedMinimized true true _ h rfl

theorem apply_snap_layout_count_launch (env : LiveEnv) (hwnd : Nat)
    (snap : Option String) (p : String) :
    ((apply_snap_layout env hwnd snap).2).count (OsOp.launch p) = 0 := by
  unfold apply_snap_layout
  split
  · rfl
  · split_ifs
    · rfl
    · split
      · rfl
      · split
        · rfl
        · simp [List.count_cons]

theorem position_window_count_launch (env : LiveEnv) (hwnd : Nat)
    (x y width height : Int) (state : String) (monitor : Int) (activate : Bool)
    (p : String) :
    (position_window env hwnd x y width height state monitor activate).count
      (OsOp.launch p) = 0 := by
  unfold position_window
  rcases position_geom env.monitorWorks x y width height monitor with ⟨px, py, pw, ph⟩
  split_ifs <;> simp [List.count_append, List.count_cons]

theorem placementOps_count_launch (env : LiveEnv) (wi : WindowRecord)
    (hwnd : Nat) (p : String) :
    (placementOps env wi hwnd).count (OsOp.launch p) = 0 := by
  unfold placementOps
  rcases h : apply_snap_layout env hwnd wi.snap_type with ⟨ok, ops⟩
  have := apply_snap_layout_count_launch env hwnd wi.snap_type p
  rw [h] at this
  cases ok
  · exact position_window_count_launch env hwnd wi.x wi.y wi.width wi.height
      wi.state wi.monitor false p
  · exact this

theorem pollLoop_count_launch (env : LiveEnv) (executable title : String)
    (p : String) : ∀ n,
    ((pollLoop env executable title n).2).count (OsOp.launch p) = 0 := by
  intro n
  induction n with
  | zero => rfl
  | succ m ih =>
    simp only [pollLoop]
    rcases findBest env executable title with _ | h
    · rcases hp : pollLoop env executable title m with ⟨r, ops⟩
      rw [hp] at ih
      simp [List.count_cons, ih]
    · simp [List.count_cons]

theorem restore_window_launch_step (env : LiveEnv) (wi : WindowRecord)
    (launched : List String) (p : String)
    (hp : baseNameChars p ∈ SESSION_MANAGED_APPS)
    (hok : env.launchOk p = true) :
    (restore_window env wi launched).2.2.count (OsOp.launch p) ≤ 1 ∧
    (p ∈ launched →
      (restore_window env wi launched).2.2.count (OsOp.launch p) = 0 ∧
      p ∈ (restore_window env wi launched).2.1) ∧
    (1 ≤ (restore_window env wi launched).2.2.count (OsOp.launch p) →
      p ∈ (restore_window env wi launched).2.1) := by
  unfold restore_window launch_program
  by_cases h1 : wi.state = "minimized"
  · simp [h1]
  · by_cases h2 : baseNameChars wi.executable ∈ SESSION_MANAGED_APPS
    · rcases hfb : findBest env wi.executable wi.title with _ | hwnd
      · by_cases h3 : wi.executable ∈ launched
        · simp [h1, h2, h3, hfb, RESTORE_SESSION_MANAGED_APPS]
        · by_cases h4 : env.launchOk wi.executable = true
          · by_cases h5 : wi.executable = p
            · subst h5
              simp [h1, h2, h3, h4, hfb, RESTORE_SESSION_MANAGED_APPS,
                List.count_cons]
            · simp only [h1, h2, h3, h4, hfb, RESTORE_SESSION_MANAGED_APPS]
              simp [h1, h2, h3, h4, h5, hfb, List.count_cons, Ne.symm h5,
                List.mem_cons]
          · by_cases h5 : wi.executable = p
            · subst h5; exact absurd hok h4
            · simp [h1, h2, h3, h4, hfb, RESTORE_SESSION_MANAGED_APPS,
                List.count_cons, Ne.symm h5]
      · simp [h1, h2, hfb, RESTORE_SESSION_MANAGED_APPS, List.count_cons]
    · have hne : wi.executable ≠ p := fun he => h2 (he ▸ hp)
      rcases hfb : findBest env wi.executable wi.title with _ | hwnd
      · by_cases h4 : env.launchOk wi.executable = true
        · rcases hpoll : pollLoop env wi.executable wi.title 10 with ⟨found, pops⟩
          have hpc := pollLoop_count_launch env wi.executable wi.title p 10
          rw [hpoll] at hpc
          rcases found with _ | hwnd
          · simp [h1, h2, h4, hfb, hpoll, RESTORE_SESSION_MANAGED_APPS,
              List.count_append, List.count_cons, Ne.symm hne, hpc]
          · simp [h1, h2, h4, hfb, hpoll, RESTORE_SESSION_MANAGED_APPS,
              List.count_append, List.count_cons, Ne.symm hne, hpc,
              placementOps_count_launch]
        · simp [h1, h2, h4, hfb, RESTORE_SESSION_MANAGED_APPS,
            List.count_cons, Ne.symm hne]
      · simp [h1, h2, hfb, RESTORE_SESSION_MANAGED_APPS,
          placementOps_count_launch]

theorem restore_windows_run_zero_launch (env : LiveEnv) (p : String)
    (hp : baseNameChars p ∈ SESSION_MANAGED_APPS)
    (hok : env.launchOk p = true) :
    ∀ (records : List WindowRecord) (launched : List String), p ∈ launched →
      (restore_windows_run env records launched).2.2.count (OsOp.launch p) = 0 := by
  intro records
  induction records with
  | nil => intro launched _; rfl
  | cons r rs ih =>
    intro launched hmem
    simp only [restore_windows_run]
    have hstep := restore_window_launch_step env r launched p hp hok
    rcases h1 : restore_window env r launched with ⟨ok, launched', ops⟩
    rw [h1] at hstep
    rcases h2 : restore_windows_run env rs launched' with ⟨cnt, launched'', ops'⟩
    have htail := ih launched' (hstep.2.1 hmem).2
    rw [h2] at htail
    simp [List.count_append, (hstep.2.1 hmem).1, htail]

theorem restore_windows_run_launch_le_one (env : LiveEnv) (p : String)
    (hp : baseNameChars p ∈ SESSION_MANAGED_APPS)
    (hok : env.launchOk p = true) :
    ∀ (records : List WindowRecord) (launched : List String),
      (restore_windows_run env records launched).2.2.count (OsOp.launch p) ≤ 1 := by
  intro records
  induction records with
  | nil => intro launched; simp [restore_windows_run]
  | cons r rs ih =>
    intro launched
    simp only [restore_windows_run]
    have hstep := restore_window_launch_step env r launched p hp hok
    rcases h1 : restore_window env r launched with ⟨ok, launched', ops⟩
    rw [h1] at hstep
    rcases h2 : restore_windows_run env rs launched' with ⟨cnt, launched'', ops'⟩
    simp only [List.count_append]
    rcases Nat.eq_zero_or_pos (ops.count (OsOp.launch p)) with hz | hpos
    · have htail := ih launched'
      rw [h2] at htail
      simp only [hz, Nat.zero_add]
      exact htail
    · have hmem := hstep.2.2 hpos
      have hzero := restore_windows_run_zero_launch env p hp hok rs launched' hmem
      rw [h2] at hzero
      have hzero' : ops'.count (OsOp.launch p) = 0 := by simpa using hzero
      have hle : ops.count (OsOp.launch p) ≤ 1 := by simpa using hstep.1
      omega

/-- C9: within one `restore_windows` run a session-managed executable whose
launch succeeds appears at most once as a launch in the whole operation
trace; and a later record for an already-launched executable with no live
window is reported handled with no operations at all. -/
theorem session_app_launched_at_most_once (env : LiveEnv)
    (records : List WindowRecord) (p : String)
    (hp : baseNameChars p ∈ SESSION_MANAGED_APPS)
    (hok : env.launchOk p = true) :
    (restore_windows_trace env records).count (OsOp.launch p) ≤ 1 ∧
    (∀ (wi : WindowRecord) (launched : List String),
      wi.executable = p → wi.state ≠ "minimized" →
      findBest env wi.executable wi.title = none → p ∈ launched →
      restore_window env wi launched = (true, launched, [])) := by
  constructor
  · exact restore_windows_run_launch_le_one env p hp hok records []
  · intro wi launched hexe hstate hnone hmem
    rw [hexe] at hnone
    simp [restore_window, hstate, hexe, hp, hnone, hmem,
      RESTORE_SESSION_MANAGED_APPS]

/-- Witness for C9: two chrome records in one run produce exactly one launch. -/
theorem session_app_launched_at_most_once_witness :
    (restore_windows_trace envLaunchable [recChrome, recChrome]).count
      (OsOp.launch "C:\\chrome.exe") ≤ 1 ∧
    (restore_windows_trace envLaunchable [recChrome, recChrome]).count
      (OsOp.launch "C:\\chrome.exe") = 1 :=
  ⟨(session_app_launched_at_most_once envLaunchable [recChrome, recChrome]
      "C:\\chrome.exe" (by decide) (by decide)).1, by decide⟩

theorem detect_snap_type_normal (mx1 my1 mx2 my2 wx1 wy1 wx2 wy2 : Int) :
    detect_snap_type "normal" (mx1, my1, mx2, my2) (some (wx1, wy1, wx2, wy2)) =
      (if nearEq mx1 wx1 ∧ nearEq (my2 - my1) (wy2 - wy1) ∧
          nearEq (mx2 - mx1) ((wx2 - wx1).fdiv 2) then some "left"
      else if nearEq mx2 wx2 ∧ nearEq (my2 - my1) (wy2 - wy1) ∧
          nearEq (mx2 - mx1) ((wx2 - wx1).fdiv 2) then some "right"
      else if nearEq my1 wy1 ∧ nearEq (mx2 - mx1) (wx2 - wx1) ∧
          nearEq (my2 - my1) ((wy2 - wy1).fdiv 2) then some "top"
      else if nearEq my2 wy2 ∧ nearEq (mx2 - mx1) (wx2 - wx1) ∧
          nearEq (my2 - my1) ((wy2 - wy1).fdiv 2) then some "bottom"
      else if nearEq mx1 wx1 ∧ nearEq my1 wy1 ∧
          nearEq (mx2 - mx1) ((wx2 - wx1).fdiv 2) ∧
          nearEq (my2 - my1) ((wy2 - wy1).fdiv 2) then some "top_left"
      else if nearEq mx2 wx2 ∧ nearEq my1 wy1 ∧
          nearEq (mx2 - mx1) ((wx2 - wx1).fdiv 2) ∧
          nearEq (my2 - my1) ((wy2 - wy1).fdiv 2) then some "top_right"
      else if nearEq mx1 wx1 ∧ nearEq my2 wy2 ∧
          nearEq (mx2 - mx1) ((wx2 - wx1).fdiv 2) ∧
          nearEq (my2 - my1) ((wy2 - wy1).fdiv 2) then some "bottom_left"
      else if nearEq mx2 wx2 ∧ nearEq my2 wy2 ∧
          nearEq (mx2 - mx1) ((wx2 - wx1).fdiv 2) ∧
          nearEq (my2 - my1) ((wy2 - wy1).fdiv 2) then some "bottom_right"
      else none) := rfl

theorem zoneRect_left (wx1 wy1 wx2 wy2 : Int) :
    zoneRect "left" (wx1, wy1, wx2, wy2) =
      some (wx1, wy1, max 1 ((wx2 - wx1).fdiv 2), wy2 - wy1) := rfl

theorem zoneRect_right (wx1 wy1 wx2 wy2 : Int) :
    zoneRect "right" (wx1, wy1, wx2, wy2) =
      some (wx1 + max 1 ((wx2 - wx1).fdiv 2), wy1,
        (wx2 - wx1) - max 1 ((wx2 - wx1).fdiv 2), wy2 - wy1) := rfl

theorem zoneRect_top (wx1 wy1 wx2 wy2 : Int) :
    zoneRect "top" (wx1, wy1, wx2, wy2) =
      some (wx1, wy1, wx2 - wx1, max 1 ((wy2 - wy1).fdiv 2)) := rfl

theorem zoneRect_bottom (wx1 wy1 wx2 wy2 : Int) :
    zoneRect "bottom" (wx1, wy1, wx2, wy2) =
      some (wx1, wy1 + max 1 ((wy2 - wy1).fdiv 2), wx2 - wx1,
        (wy2 - wy1) - max 1 ((wy2 - wy1).fdiv 2)) := rfl

theorem zoneRect_top_left (wx1 wy1 wx2 wy2 : Int) :
    zoneRect "top_left" (wx1, wy1, wx2, wy2) =
      some (wx1, wy1, max 1 ((wx2 - wx1).fdiv 2), max 1 ((wy2 - wy1).fdiv 2)) := rfl

theorem zoneRect_top_right (wx1 wy1 wx2 wy2 : Int) :
    zoneRect "top_right" (wx1, wy1, wx2, wy2) =
      some (wx1 + max 1 ((wx2 - wx1).fdiv 2), wy1,
        (wx2 - wx1) - max 1 ((wx2 - wx1).fdiv 2), max 1 ((wy2 - wy1).fdiv 2)) := rfl

theorem zoneRect_bottom_left (wx1 wy1 wx2 wy2 : Int) :
    zoneRect "bottom_left" (wx1, wy1, wx2, wy2) =
      some (wx1, wy1 + max 1 ((wy2 - wy1).fdiv 2), max 1 ((wx2 - wx1).fdiv 2),
        (wy2 - wy1) - max 1 ((wy2 - wy1).fdiv 2)) := rfl

theorem zoneRect_bottom_right (wx1 wy1 wx2 wy2 : Int) :
    zoneRect "bottom_right" (wx1, wy1, wx2, wy2) =
      some (wx1 + max 1 ((wx2 - wx1).fdiv 2), wy1 + max 1 ((wy2 - wy1).fdiv 2),
        (wx2 - wx1) - max 1 ((wx2 - wx1).fdiv 2),
        (wy2 - wy1) - max 1 ((wy2 - wy1).fdiv 2)) := rfl

set_option maxHeartbeats 1600000 in
/-- C3 (amended): the round-trip holds for work areas at least 50 wide and
50 tall (twice the 24px tolerance plus one). -/
theorem snap_zone_roundtrip (z : String) (wx1 wy1 wx2 wy2 : Int)
    (hz : z ∈ SNAP_ZONES) (hw : 50 ≤ wx2 - wx1) (hh : 50 ≤ wy2 - wy1) :
    classifyZoneRect z (wx1, wy1, wx2, wy2) = some z := by
  have hfw : (wx2 - wx1).fdiv 2 = (wx2 - wx1) / 2 := Int.fdiv_eq_ediv _ (by norm_num)
  have hfh : (wy2 - wy1).fdiv 2 = (wy2 - wy1) / 2 := Int.fdiv_eq_ediv _ (by norm_num)
  have hmw : max (1 : Int) ((wx2 - wx1) / 2) = (wx2 - wx1) / 2 := max_eq_right (by omega)
  have hmh : max (1 : Int) ((wy2 - wy1) / 2) = (wy2 - wy1) / 2 := max_eq_right (by omega)
  simp only [SNAP_ZONES, List.mem_cons, List.not_mem_nil, or_false] at hz
  rcases hz with rfl | rfl | rfl | rfl | rfl | rfl | rfl | rfl <;>
    (simp only [classifyZoneRect, zoneRect_left, zoneRect_right, zoneRect_top,
       zoneRect_bottom, zoneRect_top_left, zoneRect_top_right,
       zoneRect_bottom_left, zoneRect_bottom_right, Option.some_bind]
     rw [detect_snap_type_normal]
     simp only [hfw, hfh, hmw, hmh, nearEq]
     split_ifs <;> first | rfl | (exfalso; omega))

theorem find?_eq_head?_filter {α : Type} (p : α → Bool) (l : List α) :
    l.find? p = (l.filter p).head? := by
  induction l with
  | nil => rfl
  | cons a as ih =>
    cases h : p a
    · rw [List.find?_cons_of_neg _ (by simp [h]), List.filter_cons_of_neg (by simp [h])]
      exact ih
    · rw [List.find?_cons_of_pos _ h, List.filter_cons_of_pos h]
      rfl

theorem find?_append_first {α : Type} (p : α → Bool) (l₁ : List α) (w : α)
    (l₂ : List α) (hw : p w = true) (hl : ∀ v ∈ l₁, p v = false) :
    (l₁ ++ w :: l₂).find? p = some w := by
  induction l₁ with
  | nil => simp [List.find?_cons, hw]
  | cons a as ih =>
    have ha := hl a (by simp)
    simp only [List.cons_append, List.find?_cons, ha]
    exact ih fun v hv => hl v (by simp [hv])

theorem nodup_find?_hwnd (l : List Win) (hnd : (l.map Win.hwnd).Nodup) :
    ∀ w ∈ l, l.find? (fun v => v.hwnd == w.hwnd) = some w := by
  induction l with
  | nil => intro w hw; cases hw
  | cons a as ih =>
    intro w hw
    rcases List.mem_cons.1 hw with rfl | hw'
    · simp [List.find?_cons]
    · have hne : a.hwnd ≠ w.hwnd := by
        intro he
        have : w.hwnd ∈ as.map Win.hwnd := List.mem_map_of_mem Win.hwnd hw'
        rw [← he] at this
        exact (List.nodup_cons.1 (by simpa using hnd)).1 this
      have hb : (a.hwnd == w.hwnd) = false := by simpa using hne
      simp only [List.find?_cons, hb]
      exact ih (List.nodup_cons.1 (by simpa using hnd)).2 w hw'

theorem getWindowText_of_mem (env : LiveEnv)
    (hnd : (env.wins.map Win.hwnd).Nodup) (w : Win) (hw : w ∈ env.wins) :
    getWindowText env w.hwnd = w.title := by
  unfold getWindowText
  rw [nodup_find?_hwnd env.wins hnd w hw]

theorem winArea_of_mem (env : LiveEnv)
    (hnd : (env.wins.map Win.hwnd).Nodup) (w : Win) (hw : w ∈ env.wins) :
    winArea env w.hwnd = rectArea w.rect := by
  unfold winArea rectArea
  rw [nodup_find?_hwnd env.wins hnd w hw]

theorem length_insertByDesc (key : Nat → Int) (x : Nat) (l : List Nat) :
    (insertByDesc key x l).length = l.length + 1 := by
  induction l with
  | nil => rfl
  | cons y ys ih =>
    unfold insertByDesc
    split_ifs
    · rfl
    · simp [ih]

theorem length_sortByDesc (key : Nat → Int) (l : List Nat) :
    (sortByDesc key l).length = l.length := by
  induction l with
  | nil => rfl
  | cons x xs ih => simp [sortByDesc, length_insertByDesc, ih]

theorem sortByDesc_headD_mem (key : Nat → Int) (l : List Nat) (d : Nat)
    (h : l ≠ []) : (sortByDesc key l).headD d ∈ l := by
  induction l with
  | nil => exact absurd rfl h
  | cons x xs ih =>
    simp only [sortByDesc]
    cases hs : sortByDesc key xs with
    | nil => simp [insertByDesc]
    | cons y ys =>
      have hxs : xs ≠ [] := by
        intro he
        rw [he] at hs
        exact List.cons_ne_nil y ys hs.symm
      have hy : y ∈ xs := by
        have := ih hxs
        rw [hs] at this
        simpa using this
      unfold insertByDesc
      split_ifs
      · simp
      · simp [List.mem_cons, hy]

theorem sortByDesc_headD_firstmax (key : Nat → Int) :
    ∀ (l₁ : List Nat) (x : Nat) (l₂ : List Nat) (d : Nat),
      (∀ y ∈ l₁, key y < key x) → (∀ y ∈ l₂, key y ≤ key x) →
      (sortByDesc key (l₁ ++ x :: l₂)).headD d = x := by
  intro l₁
  induction l₁ with
  | nil =>
    intro x l₂ d _ h₂
    simp only [List.nil_append, sortByDesc]
    cases hs : sortByDesc key l₂ with
    | nil => simp [insertByDesc]
    | cons y ys =>
      have hl₂ : l₂ ≠ [] := by
        intro he
        rw [he] at hs
        exact List.cons_ne_nil y ys hs.symm
      have hy : y ∈ l₂ := by
        have := sortByDesc_headD_mem key l₂ d hl₂
        rw [hs] at this
        simpa using this
      unfold insertByDesc
      rw [if_pos (h₂ y hy)]
      rfl
  | cons a l₁' ih =>
    intro x l₂ d h₁ h₂
    simp only [List.cons_append, sortByDesc]
    have hrest : (sortByDesc key (l₁' ++ x :: l₂)).headD d = x :=
      ih x l₂ d (fun y hy => h₁ y (by simp [hy])) h₂
    cases hs : sortByDesc key (l₁' ++ x :: l₂) with
    | nil =>
      exfalso
      have := length_sortByDesc key (l₁' ++ x :: l₂)
      rw [hs] at this
      simp only [List.length_nil, List.length_append, List.length_cons] at this
      omega
    | cons y ys =>
      rw [hs] at hrest
      simp only [List.headD_cons] at hrest
      subst hrest
      unfold insertByDesc
      rw [if_neg (by have := h₁ a (by simp); omega)]
      rfl

theorem choose_best_window_area (env : LiveEnv) (title : String)
    (htb : (title == "") = false)
    (m₁ : List Nat) (x : Nat) (m₂ : List Nat)
    (hnosub : ∀ hw ∈ m₁ ++ x :: m₂,
      containsChars (lowerChars title) (lowerChars (getWindowText env hw)) = false)
    (hlt : ∀ y ∈ m₁, winArea env y < winArea env x)
    (hle : ∀ y ∈ m₂, winArea env y ≤ winArea env x) :
    choose_best_window env (m₁ ++ x :: m₂) title = some x := by
  cases hm : m₁ ++ x :: m₂ with
  | nil => exact absurd hm (by simp)
  | cons h t =>
    simp only [hm] at hnosub
    have hfnone : (h :: t).find? (fun hw =>
        containsChars (lowerChars title) (lowerChars (getWindowText env hw))) = none :=
      List.find?_eq_none.mpr (fun hw hhw => by simp [hnosub hw hhw])
    simp only [choose_best_window, htb, Bool.false_eq_true, if_false, hfnone]
    rw [← hm]
    rw [sortByDesc_headD_firstmax (winArea env) m₁ x m₂ h hlt hle]

theorem findBest_substring_first (env : LiveEnv) (exe title : String)
    (l₁ : List Win) (w : Win) (l₂ : List Win) (ht : title ≠ "")
    (hsplit : env.wins = l₁ ++ w :: l₂)
    (hcand : isCandidate (baseNameChars exe) w = true)
    (hsub : containsChars (lowerChars title) (lowerChars w.title) = true)
    (hfirst : ∀ v ∈ l₁, ¬(isCandidate (baseNameChars exe) v = true ∧
      containsChars (lowerChars title) (lowerChars v.title) = true)) :
    findBest env exe title = some w.hwnd := by
  have htb : (title == "") = false := by simpa using ht
  have hfind : find_window_by_executable env exe title = some w.hwnd := by
    unfold find_window_by_executable
    rw [hsplit, find?_append_first _ l₁ w l₂ (by simp [hcand, hsub]) ?_]
    · rfl
    · intro v hv
      cases hc : isCandidate (baseNameChars exe) v
      · simp [hc]
      · have := hfirst v hv
        simp only [hc, true_and] at this
        simp [hc, htb, this]
  simp [findBest, hfind]

theorem findBest_empty_title_first (env : LiveEnv) (exe : String)
    (w : Win) (rest : List Win)
    (hsplit : env.wins.filter (isCandidate (baseNameChars exe)) = w :: rest) :
    findBest env exe "" = some w.hwnd := by
  have hfind : find_window_by_executable env exe "" = some w.hwnd := by
    unfold find_window_by_executable
    have hpred : (fun v => isCandidate (baseNameChars exe) v &&
        (("" == "" : Bool) || containsChars (lowerChars "") (lowerChars v.title))) =
        (fun v => isCandidate (baseNameChars exe) v) := by
      funext v; simp
    rw [hpred, find?_eq_head?_filter, hsplit]
    rfl
  simp [findBest, hfind]

theorem findBest_area_fallback (env : LiveEnv) (exe title : String)
    (ht : title ≠ "")
    (hnd : (env.wins.map Win.hwnd).Nodup)
    (hnosub : ∀ v ∈ env.wins, isCandidate (baseNameChars exe) v = true →
      containsChars (lowerChars title) (lowerChars v.title) = false)
    (l₁ : List Win) (w : Win) (l₂ : List Win)
    (hsplit : env.wins.filter (isCandidate (baseNameChars exe)) = l₁ ++ w :: l₂)
    (hmax1 : ∀ v ∈ l₁, rectArea v.rect < rectArea w.rect)
    (hmax2 : ∀ v ∈ l₂, rectArea v.rect ≤ rectArea w.rect) :
    findBest env exe title = some w.hwnd := by
  have htb : (title == "") = false := by simpa using ht
  have hfmem : ∀ v ∈ l₁ ++ w :: l₂, v ∈ env.wins ∧
      isCandidate (baseNameChars exe) v = true := by
    intro v hv
    have : v ∈ env.wins.filter (isCandidate (baseNameChars exe)) := hsplit ▸ hv
    exact ⟨(List.mem_filter.1 this).1, (List.mem_filter.1 this).2⟩
  have hwmem : w ∈ env.wins := (hfmem w (by simp)).1
  have hfind : find_window_by_executable env exe title = none := by
    unfold find_window_by_executable
    rw [List.find?_eq_none.mpr ?_]
    · rfl
    · intro v hv
      cases hc : isCandidate (baseNameChars exe) v
      · simp [hc]
      · simp [hc, htb, hnosub v hv hc]
  have harea : ∀ v, v ∈ env.wins → isCandidate (baseNameChars exe) v = true →
      winArea env v.hwnd = rectArea v.rect := fun v hv _ => winArea_of_mem env hnd v hv
  simp only [findBest, hfind, find_windows_by_executable]
  rw [hsplit, List.map_append, List.map_cons]
  rw [choose_best_window_area env title htb (l₁.map Win.hwnd) w.hwnd
    (l₂.map Win.hwnd) ?_ ?_ ?_]
  · intro hw hhw
    rw [← List.map_cons, ← List.map_append] at hhw
    rcases List.mem_map.1 hhw with ⟨v, hvmem, rfl⟩
    rcases hfmem v hvmem with ⟨hvw, hvc⟩
    rw [getWindowText_of_mem env hnd v hvw]
    exact hnosub v hvw hvc
  · intro y hy
    rcases List.mem_map.1 hy with ⟨v, hvmem, rfl⟩
    rcases hfmem v (by simp [hvmem]) with ⟨hvw, hvc⟩
    rw [winArea_of_mem env hnd v hvw, winArea_of_mem env hnd w hwmem]
    exact hmax1 v hvmem
  · intro y hy
    rcases List.mem_map.1 hy with ⟨v, hvmem, rfl⟩
    rcases hfmem v (by simp [hvmem]) with ⟨hvw, hvc⟩
    rw [winArea_of_mem env hnd v hvw, winArea_of_mem env hnd w hwmem]
    exact hmax2 v hvmem

/-- C2 counterexample: with the two chrome windows enumerated as
[substring window, exact-title window], the matcher returns the substring
window (hwnd 1), not the exact-title one (hwnd 2) — there is no exact-title
preference. -/
theorem findBest_no_exact_title_preference :
    (envChromePair.wins.map fun w => (w.hwnd, w.title)) =
      [(1, "GitHub - Pricing"), (2, "GitHub")] ∧
    findBest envChromePair "C:\\chrome.exe" "GitHub" = some 1 ∧
    findBest envChromePair "C:\\chrome.exe" "GitHub" ≠ some 2 :=
  ⟨by decide, by decide, by decide⟩

/-- C2 (amended): with a non-empty title, `findBest` returns the first
candidate (in enumeration order) whose title contains the target as a
case-insensitive substring, with no preference for exact equality; when no
candidate title contains it, the largest-area candidate wins with earlier
enumeration breaking ties; with an empty title it returns simply the first
candidate.  On the claim's window pair, enumerated substring-first, the
substring window (hwnd 1) is returned. -/
theorem findBest_matching_policy :
    (∀ (env : LiveEnv) (exe title : String) (l₁ : List Win) (w : Win) (l₂ : List Win),
      title ≠ "" → env.wins = l₁ ++ w :: l₂ →
      isCandidate (baseNameChars exe) w = true →
      containsChars (lowerChars title) (lowerChars w.title) = true →
      (∀ v ∈ l₁, ¬(isCandidate (baseNameChars exe) v = true ∧
        containsChars (lowerChars title) (lowerChars v.title) = true)) →
      findBest env exe title = some w.hwnd) ∧
    (∀ (env : LiveEnv) (exe title : String), title ≠ "" →
      (env.wins.map Win.hwnd).Nodup →
      (∀ v ∈ env.wins, isCandidate (baseNameChars exe) v = true →
        containsChars (lowerChars title) (lowerChars v.title) = false) →
      ∀ (l₁ : List Win) (w : Win) (l₂ : List Win),
        env.wins.filter (isCandidate (baseNameChars exe)) = l₁ ++ w :: l₂ →
        (∀ v ∈ l₁, rectArea v.rect < rectArea w.rect) →
        (∀ v ∈ l₂, rectArea v.rect ≤ rectArea w.rect) →
        findBest env exe title = some w.hwnd) ∧
    (∀ (env : LiveEnv) (exe : String) (w : Win) (rest : List Win),
      env.wins.filter (isCandidate (baseNameChars exe)) = w :: rest →
      findBest env exe "" = some w.hwnd) ∧
    findBest envChromePair "C:\\chrome.exe" "GitHub" = some 1 :=
  ⟨fun env exe title l₁ w l₂ ht hs hc hsub hf =>
      findBest_substring_first env exe title l₁ w l₂ ht hs hc hsub hf,
   fun env exe title ht hnd hns l₁ w l₂ hs h1 h2 =>
      findBest_area_fallback env exe title ht hnd hns l₁ w l₂ hs h1 h2,
   fun env exe w rest hs => findBest_empty_title_first env exe w rest hs,
   by decide⟩

/-- Witness for C2 (amended): the empty-title clause at a concrete
environment returns the first (only) candidate. -/
theorem findBest_matching_policy_witness :
    findBest envChromeOne "C:\\chrome.exe" "" = some 7 :=
  findBest_matching_policy.2.2.1 envChromeOne "C:\\chrome.exe"
    ⟨7, "chrome.exe", "GitHub", (30, 40, 830, 640), true, false⟩ [] (by decide)

/-- C3 counterexample: on a 48x48 work area, the "right" zone's rectangle is
classified as "left" — the 24px tolerance swallows the half-width offset,
so the inverse-then-classify round trip does not hold for every work area. -/
theorem snap_zone_roundtrip_fails_on_small_workarea :
    classifyZoneRect "right" (0, 0, 48, 48) = some "left" ∧
    classifyZoneRect "right" (0, 0, 48, 48) ≠ some "right" :=
  ⟨by decide, by decide⟩

/-- Witness for C3 (amended) at a 1920x1080 work area. -/
theorem snap_zone_roundtrip_witness :
    classifyZoneRect "bottom_right" (0, 0, 1920, 1080) = some "bottom_right" :=
  snap_zone_roundtrip "bottom_right" 0 0 1920 1080 (by decide) (by decide) (by decide)
